import Mathlib

/-!
Verification development for the StreamNotifier repository.

The definitions below are shallow embeddings of the program's data model
and operations: the change detector (`detectChanges`), the scheduler's
event merging (`combineChanges`), the per-entity cycle handler
(`processStreamer`), the poll cycle with its resource-guard restart
(`poll`, `isAllOffline`, `checkRestart`), the batched platform client
(`getUsers`, `getStreams`, `getChannels`), the webhook fan-out
(`sendToMultipleWebhooks`), the sink interest filter
(`isNotificationEnabled`), and small interleaving models of the two
credential brokers (`tsStep` for the TypeScript `TwitchAuth.getToken`,
`goStep` for the Go `Auth.GetToken`).

External effects (HTTP fetches, the recording lookup, webhook delivery,
process memory sampling) are passed in as explicit oracle arguments, so
every definition is executable.
-/

namespace StreamNotifier

/-- Per-tracked-entity snapshot, mirroring `StreamerState` of
`src/src/monitor/state` (fields as built by `Poller.buildStreamerState`). -/
structure StreamerState where
  userId : String
  username : String
  displayName : String
  profileImageUrl : String
  isLive : Bool
  title : String
  gameId : String
  gameName : String
  startedAt : Option String
  thumbnailUrl : Option String
  viewerCount : Nat
deriving Repr, DecidableEq

/-- The event kind tag, mirroring `ChangeTypes` of `src/src/config/schema`. -/
inductive ChangeType where
  | online
  | offline
  | titleChange
  | gameChange
  | titleAndGameChange
deriving Repr, DecidableEq

/-- A detected change event, mirroring `DetectedChange` of
`src/src/monitor/detector.ts`; absent optional fields are `none`. -/
structure DetectedChange where
  type : ChangeType
  streamer : String
  oldValue : Option String := none
  newValue : Option String := none
  oldTitle : Option String := none
  newTitle : Option String := none
  oldGame : Option String := none
  newGame : Option String := none
  streamStartedAt : Option String := none
  vodUrl : Option String := none
  vodThumbnailUrl : Option String := none
  currentState : StreamerState
deriving Repr, DecidableEq

/-- Embeds `detectChanges` of `src/src/monitor/detector.ts`: pure diff of the
previous snapshot (absent on the first observation) against the new one.
Each of the four independent rules appends at most one event, in source
order. -/
def detectChanges (oldState : Option StreamerState) (newState : StreamerState) :
    List DetectedChange :=
  match oldState with
  | none => []
  | some o =>
    (if !o.isLive && newState.isLive then
      [{ type := .online, streamer := newState.username, currentState := newState }]
    else []) ++
    (if o.isLive && !newState.isLive then
      [{ type := .offline, streamer := newState.username,
         streamStartedAt := o.startedAt, currentState := newState }]
    else []) ++
    (if o.title != newState.title && newState.title != "" then
      [{ type := .titleChange, streamer := newState.username,
         oldValue := some o.title, newValue := some newState.title,
         currentState := newState }]
    else []) ++
    (if o.gameId != newState.gameId then
      [{ type := .gameChange, streamer := newState.username,
         oldValue := some o.gameName, newValue := some newState.gameName,
         currentState := newState }]
    else [])

/-- Predicate for title-changed events (the `find?`/`filter` tests inside
`Poller.combineChanges`). -/
def isTitleChangeEvent (c : DetectedChange) : Bool :=
  c.type == .titleChange

/-- Predicate for category-changed events (the `find?`/`filter` tests inside
`Poller.combineChanges`). -/
def isGameChangeEvent (c : DetectedChange) : Bool :=
  c.type == .gameChange

/-- Embeds `Poller.combineChanges` of `src/src/monitor/poller.ts`: when the result
set holds both a title-changed and a game-changed event, drop both and
append a single merged `titleAndGameChange` event carrying both pairs. -/
def combineChanges (changes : List DetectedChange) : List DetectedChange :=
  match changes.find? isTitleChangeEvent, changes.find? isGameChangeEvent with
  | some titleChange, some gameChange =>
    let combinedChange : DetectedChange :=
      { type := .titleAndGameChange
        streamer := titleChange.streamer
        oldTitle := titleChange.oldValue
        newTitle := titleChange.newValue
        oldGame := gameChange.oldValue
        newGame := gameChange.newValue
        currentState := titleChange.currentState }
    changes.filter (fun c => !isTitleChangeEvent c && !isGameChangeEvent c) ++
      [combinedChange]
  | _, _ => changes

/-- Twitch user record (`TwitchUser` of `src/src/twitch/types`), restricted
to the fields the monitor reads. -/
structure TwitchUser where
  id : String
  login : String
  display_name : String
  profile_image_url : String
deriving Repr, DecidableEq

/-- Twitch live-stream record (`TwitchStream`), restricted to the fields the
monitor reads. -/
structure TwitchStream where
  user_login : String
  game_id : String
  game_name : String
  title : String
  viewer_count : Nat
  started_at : String
  thumbnail_url : String
deriving Repr, DecidableEq

/-- Twitch channel record (`TwitchChannel`), restricted to the fields the
monitor reads. -/
structure TwitchChannel where
  broadcaster_login : String
  game_id : String
  game_name : String
  title : String
deriving Repr, DecidableEq

/-- Twitch VOD record (`TwitchVideo`), restricted to the fields
`Poller.attachVodInfo` reads. -/
structure TwitchVideo where
  url : String
  thumbnail_url : String
deriving Repr, DecidableEq

/-- JavaScript `String.toLowerCase` / Go `strings.ToLower` as used on the
ASCII usernames. (`String.toLower` of the Lean core is not kernel-reducible,
so the embedding maps `Char.toLower` over the character list, which is
extensionally the same function.) -/
def lowercase (s : String) : String :=
  ⟨s.data.map Char.toLower⟩

/-- JavaScript `Map.get`: first binding for the key in an association list. -/
def mapGet {α : Type} (m : List (String × α)) (k : String) : Option α :=
  (m.find? (fun p => p.1 == k)).map (fun p => p.2)

/-- JavaScript `Map.set`: replace the binding for the key, or append it. -/
def mapSet {α : Type} (m : List (String × α)) (k : String) (v : α) :
    List (String × α) :=
  match m with
  | [] => [(k, v)]
  | (k', v') :: rest =>
    if k' == k then (k, v) :: rest else (k', v') :: mapSet rest k v

/-- Embeds `StateManager.getState`: lookup under the case-folded key,
following the Go `StateManager.GetState` (`src/unnamed/part_009`) and the
spec's StateStore contract (the TypeScript state module is not among the
shipped sources, but the poller already passes case-folded keys, making the
two readings agree). -/
def getState (states : List (String × StreamerState)) (username : String) :
    Option StreamerState :=
  mapGet states (lowercase username)

/-- Embeds `StateManager.updateState`: store under the case-folded key,
following the Go `StateManager.UpdateState` (`src/unnamed/part_009`) and the
spec's StateStore contract. -/
def updateState (states : List (String × StreamerState)) (username : String)
    (state : StreamerState) : List (String × StreamerState) :=
  mapSet states (lowercase username) state

/-- Per-streamer configuration entry (`StreamerConfig`), restricted to the
field the poller reads. -/
structure StreamerConfig where
  username : String
deriving Repr, DecidableEq

/-- Embeds `Poller.buildStreamerState` of `src/src/monitor/poller.ts`: merge user
identity with live-stream fields (if live) or channel fields (if offline);
`source = stream ?? channel`. -/
def buildStreamerState (user : TwitchUser) (stream : Option TwitchStream)
    (channel : Option TwitchChannel) : StreamerState :=
  { userId := user.id
    username := user.login
    displayName := user.display_name
    profileImageUrl := user.profile_image_url
    isLive := stream.isSome
    title :=
      (match stream with
       | some s => some s.title
       | none => channel.map TwitchChannel.title).getD ""
    gameId :=
      (match stream with
       | some s => some s.game_id
       | none => channel.map TwitchChannel.game_id).getD ""
    gameName :=
      (match stream with
       | some s => some s.game_name
       | none => channel.map TwitchChannel.game_name).getD ""
    startedAt := stream.map (fun s => s.started_at)
    thumbnailUrl := stream.map (fun s => s.thumbnail_url)
    viewerCount := (stream.map (fun s => s.viewer_count)).getD 0 }

/-- Embeds `ThumbnailSize` of `src/src/config/schema` and the substitution performed
by `Poller.attachVodInfo` on the VOD thumbnail URL template. -/
def substituteThumbnailSize (s : String) : String :=
  (s.replace "%{width}" "440").replace "%{height}" "248"

/-- Embeds `Poller.attachVodInfo` of `src/src/monitor/poller.ts`: for every
went-offline event, call `getLatestVod` (the `vodOracle` argument models that
HTTP call: it may throw, return no VOD, or return one) and attach the VOD url
and substituted thumbnail url. A thrown lookup propagates (there is no
try/catch in this method), aborting the remaining per-entity processing. -/
def attachVodInfo (vodOracle : String → Except String (Option TwitchVideo))
    (userId : String) : List DetectedChange → Except String (List DetectedChange)
  | [] => .ok []
  | change :: rest =>
    match ((if change.type == .offline then
              match vodOracle userId with
              | .error e => .error e
              | .ok none => .ok change
              | .ok (some vod) =>
                .ok { change with
                      vodUrl := some vod.url
                      vodThumbnailUrl :=
                        some (substituteThumbnailSize vod.thumbnail_url) }
            else .ok change) : Except String DetectedChange) with
    | .error e => .error e
    | .ok change' =>
      match attachVodInfo vodOracle userId rest with
      | .error e => .error e
      | .ok rest' => .ok (change' :: rest')

/-- Embeds `Poller.processStreamer` of `src/src/monitor/poller.ts`: build the new
snapshot, diff it against the stored one, synthesize a went-live event on an
initial-poll live baseline, merge correlated events, attach VOD info, then
store the new snapshot. Returns the updated store and the events handed to
`onChanges`; a thrown VOD lookup propagates before the store update. -/
def processStreamer (vodOracle : String → Except String (Option TwitchVideo))
    (userCache : List (String × TwitchUser))
    (streams : List (String × TwitchStream))
    (channels : List (String × TwitchChannel))
    (states : List (String × StreamerState)) (sc : StreamerConfig) :
    Except String (List (String × StreamerState) × List DetectedChange) :=
  let username := lowercase sc.username
  match mapGet userCache username with
  | none => .ok (states, [])
  | some user =>
    let stream := mapGet streams username
    let channel := mapGet channels username
    let newState := buildStreamerState user stream channel
    let oldState := getState states username
    let isInitialPoll := oldState.isNone
    let detectedChanges := detectChanges oldState newState
    let detectedChanges :=
      if isInitialPoll && newState.isLive then
        detectedChanges ++
          [{ type := .online, streamer := newState.username,
             currentState := newState }]
      else detectedChanges
    let combinedChanges := combineChanges detectedChanges
    match attachVodInfo vodOracle user.id combinedChanges with
    | .error e => .error e
    | .ok finalChanges => .ok (updateState states username newState, finalChanges)

/-- Embeds `Poller.collectOfflineUserIds` of `src/src/monitor/poller.ts`: ids of
configured streamers found in the user cache but not in the live-streams
map. -/
def collectOfflineUserIds (streamers : List StreamerConfig)
    (userCache : List (String × TwitchUser))
    (streams : List (String × TwitchStream)) : List String :=
  streamers.filterMap (fun sc =>
    let username := lowercase sc.username
    match mapGet userCache username with
    | some user =>
      if (mapGet streams username).isNone then some user.id else none
    | none => none)

/-- The `for` loop over `this.config.streamers` inside `Poller.poll`,
together with its surrounding try/catch: streamers are processed in order;
the first thrown error is caught at the poll boundary, so the streamers
after it are skipped for that cycle and the thrown streamer's store update
is lost. Returns (final store, all emitted events, caught error if any). -/
def runStreamers (vodOracle : String → Except String (Option TwitchVideo))
    (userCache : List (String × TwitchUser))
    (streams : List (String × TwitchStream))
    (channels : List (String × TwitchChannel)) :
    List StreamerConfig → List (String × StreamerState) →
    List (String × StreamerState) × List DetectedChange × Option String
  | [], states => (states, [], none)
  | sc :: rest, states =>
    match processStreamer vodOracle userCache streams channels states sc with
    | .error e => (states, [], some e)
    | .ok (states', emitted) =>
      let (finalStates, restEmitted, err) :=
        runStreamers vodOracle userCache streams channels rest states'
      (finalStates, emitted ++ restEmitted, err)

/-- Embeds `RSS_LIMIT_BYTES` of `src/src/monitor/poller.ts`. -/
def RSS_LIMIT_BYTES : Nat := 512 * 1024 * 1024

/-- Embeds `MEMORY_LOG_INTERVAL` of `src/src/monitor/poller.ts`. -/
def MEMORY_LOG_INTERVAL : Nat := 100

/-- The restart-flag update of `Poller.logMemory`: arm `restartPending` once
the sampled RSS exceeds the limit. -/
def logMemoryStep (rss : Nat) (restartPending : Bool) : Bool :=
  if !restartPending && rss > RSS_LIMIT_BYTES then true else restartPending

/-- Embeds `Poller.isAllOffline` of `src/src/monitor/poller.ts`: no tracked
streamer's stored state is live (an absent state counts as offline). -/
def isAllOffline (streamers : List StreamerConfig)
    (states : List (String × StreamerState)) : Bool :=
  streamers.all (fun sc =>
    match getState states (lowercase sc.username) with
    | some state => !state.isLive
    | none => true)

/-- Embeds `Poller.checkRestart` of `src/src/monitor/poller.ts`: the process exits
(returns `true`) exactly when the restart flag is armed and every tracked
streamer is offline. -/
def checkRestart (streamers : List StreamerConfig)
    (states : List (String × StreamerState)) (restartPending : Bool) : Bool :=
  restartPending && isAllOffline streamers states

/-- The poller's cross-cycle mutable state. -/
structure PollerState where
  states : List (String × StreamerState)
  pollCount : Nat
  restartPending : Bool

/-- The external inputs consumed by one poll cycle: the two batched fetch
results (each may throw), the per-entity VOD lookup, and the sampled RSS. -/
structure PollInputs where
  streamsResult : Except String (List (String × TwitchStream))
  channelsResult : Except String (List (String × TwitchChannel))
  vodOracle : String → Except String (Option TwitchVideo)
  rss : Nat

/-- Embeds `Poller.poll` of `src/src/monitor/poller.ts`: fetch live status, fetch
channel metadata for offline streamers, process every streamer (all inside
one try/catch), then bump the cycle counter, sample memory every
`MEMORY_LOG_INTERVAL` cycles, and run the restart check. Returns the new
poller state, the emitted events, and whether the process exited via the
restart path. -/
def poll (streamers : List StreamerConfig)
    (userCache : List (String × TwitchUser)) (inp : PollInputs)
    (ps : PollerState) : PollerState × List DetectedChange × Bool :=
  let cycle :
      List (String × StreamerState) × List DetectedChange × Option String :=
    match inp.streamsResult with
    | .error e => (ps.states, [], some e)
    | .ok streams =>
      let offlineUserIds := collectOfflineUserIds streamers userCache streams
      match (if offlineUserIds.length > 0 then inp.channelsResult
             else .ok []) with
      | .error e => (ps.states, [], some e)
      | .ok channels =>
        runStreamers inp.vodOracle userCache streams channels streamers
          ps.states
  let pollCount := ps.pollCount + 1
  let restartPending :=
    if pollCount % MEMORY_LOG_INTERVAL == 0 then
      logMemoryStep inp.rss ps.restartPending
    else ps.restartPending
  let ps' : PollerState := ⟨cycle.1, pollCount, restartPending⟩
  (ps', cycle.2.1, checkRestart streamers ps'.states ps'.restartPending)

/-- Embeds `TwitchAPI.getUsers` of `src/src/twitch/api.ts`. The `request` argument
models the batched HTTP call; the returned `Nat` counts the HTTP requests
issued. An empty login list short-circuits to an empty map with no
request. -/
def getUsers (request : Unit → Except String (List TwitchUser))
    (logins : List String) :
    Except String (List (String × TwitchUser)) × Nat :=
  if logins.length == 0 then (.ok [], 0)
  else
    match request () with
    | .error e => (.error e, 1)
    | .ok users =>
      (.ok (users.foldl (fun m user => mapSet m (lowercase user.login) user) []), 1)

/-- Embeds `TwitchAPI.getStreams` of `src/src/twitch/api.ts`, modelled like
`getUsers`. -/
def getStreams (request : Unit → Except String (List TwitchStream))
    (userLogins : List String) :
    Except String (List (String × TwitchStream)) × Nat :=
  if userLogins.length == 0 then (.ok [], 0)
  else
    match request () with
    | .error e => (.error e, 1)
    | .ok streams =>
      (.ok (streams.foldl (fun m s => mapSet m (lowercase s.user_login) s) []), 1)

/-- Embeds `TwitchAPI.getChannels` of `src/src/twitch/api.ts`, modelled like
`getUsers`. -/
def getChannels (request : Unit → Except String (List TwitchChannel))
    (broadcasterIds : List String) :
    Except String (List (String × TwitchChannel)) × Nat :=
  if broadcasterIds.length == 0 then (.ok [], 0)
  else
    match request () with
    | .error e => (.error e, 1)
    | .ok channels =>
      (.ok (channels.foldl
        (fun m c => mapSet m (lowercase c.broadcaster_login) c) []), 1)

/-- One error log record produced by the dispatch loop of
`sendToMultipleWebhooks`: the sink's 1-based ordinal and the total sink
count. -/
structure WebhookErrorLog where
  ordinal : Nat
  total : Nat
deriving Repr, DecidableEq

/-- The logging loop of `sendToMultipleWebhooks` over the settled results:
one error record per rejected delivery, carrying `index + 1` and the total
count. -/
def webhookErrorLogs (results : List (Except String Unit)) (total : Nat) :
    List WebhookErrorLog :=
  (List.range results.length).filterMap (fun i =>
    match results[i]? with
    | some (Except.error _) => some ⟨i + 1, total⟩
    | _ => none)

/-- Embeds `sendToMultipleWebhooks` of `src/src/discord/webhook.ts`: attempt an
independent delivery to every sink (`Promise.allSettled` over
`webhookUrls.map(sendWebhook ...)`; the `send` argument models one delivery
attempt, which either fulfills or rejects), then log each rejection with its
ordinal position and the total count. The operation itself never rejects:
its result is a plain pair of settled outcomes and log records. -/
def sendToMultipleWebhooks (send : String → Except String Unit)
    (webhookUrls : List String) :
    List (Except String Unit) × List WebhookErrorLog :=
  let results := webhookUrls.map send
  (results, webhookErrorLogs results webhookUrls.length)

/-- Per-sink interest flags (`NotificationSettings` of
`src/src/config/schema`). -/
structure NotificationSettings where
  online : Bool
  offline : Bool
  titleChange : Bool
  gameChange : Bool
deriving Repr, DecidableEq

/-- The dynamic access `notifications[changeType]` used by
`isNotificationEnabled`; `titleAndGameChange` is not a key of
`NotificationSettings`, which the caller's guard makes unreachable. -/
def notificationFlag (notifications : NotificationSettings) :
    ChangeType → Option Bool
  | .online => some notifications.online
  | .offline => some notifications.offline
  | .titleChange => some notifications.titleChange
  | .gameChange => some notifications.gameChange
  | .titleAndGameChange => none

/-- Embeds `isNotificationEnabled` of `src/src/config/schema`: a merged
title-and-game event passes when either half's flag is enabled; any other
kind is looked up directly in the sink's flags. -/
def isNotificationEnabled (changeType : ChangeType)
    (notifications : NotificationSettings) : Bool :=
  if changeType == .titleAndGameChange then
    notifications.titleChange || notifications.gameChange
  else
    (notificationFlag notifications changeType).getD false

/-- The cache test shared by both credential brokers: the cached token must
be present and non-empty (TypeScript truthiness of `this.accessToken`, Go
`a.accessToken != ""`) and usable until one minute (60000 ms) before its
recorded expiry. -/
def tokenValid (now : Int) (accessToken : Option String) (expiresAt : Int) :
    Bool :=
  match accessToken with
  | some t => t != "" && decide (now < expiresAt - 60000)
  | none => false

/-- Program counter of one `getToken` caller of the TypeScript `TwitchAuth`
(`src/src/twitch/auth`): `start` = about to run the synchronous
check-then-refresh prefix; `refreshing` = suspended on the token POST inside
`refreshToken`; `done r` = returned token `r`. -/
inductive TsPC where
  | start
  | refreshing
  | done (result : String)
deriving Repr, DecidableEq

/-- State of one TypeScript `TwitchAuth` instance together with its
concurrent `getToken` callers. `inflight` counts refresh HTTP requests
currently in flight. -/
structure TsAuthState where
  accessToken : Option String
  expiresAt : Int
  tasks : Nat → TsPC
  inflight : Nat

/-- One interleaving step of caller `i` against the TypeScript
`TwitchAuth.getToken`: the cache check and the start of `refreshToken` run
synchronously up to the awaited `fetch` (the only suspension point), so a
caller either returns the cached token, starts a refresh, or completes its
own refresh and publishes the new token. There is no serialization between
callers. -/
def tsStep (now freshExpiresAt : Int) (freshToken : String) (s : TsAuthState)
    (i : Nat) : TsAuthState :=
  match s.tasks i with
  | .start =>
    if tokenValid now s.accessToken s.expiresAt then
      { s with tasks := fun j =>
          if j = i then .done (s.accessToken.getD "") else s.tasks j }
    else
      { s with
        tasks := fun j => if j = i then .refreshing else s.tasks j
        inflight := s.inflight + 1 }
  | .refreshing =>
    { s with
      accessToken := some freshToken
      expiresAt := freshExpiresAt
      tasks := fun j => if j = i then .done freshToken else s.tasks j
      inflight := s.inflight - 1 }
  | .done _ => s

/-- A fresh TypeScript broker (no cached token) with every caller at its
entry point. -/
def tsInit : TsAuthState :=
  { accessToken := none, expiresAt := 0, tasks := fun _ => .start,
    inflight := 0 }

/-- Run the TypeScript broker under an explicit interleaving schedule (each
entry names the caller that takes the next step). -/
def tsRun (now freshExpiresAt : Int) (freshToken : String)
    (sched : List Nat) : TsAuthState :=
  sched.foldl (tsStep now freshExpiresAt freshToken) tsInit

/-- Program counter of one `GetToken` caller of the Go `Auth`
(`src/internal/twitch/auth.go`): the caller first blocks on `a.mu`, then
checks the cache while holding it, refreshes while still holding it, and
releases on return. -/
inductive GoPC where
  | start
  | checking
  | refreshing
  | done (result : String)
deriving Repr, DecidableEq

/-- State of one Go `Auth` instance together with its concurrent `GetToken`
callers. `lockHolder` is the goroutine currently holding `a.mu`;
`refreshStarts` counts refresh attempts ever begun. -/
structure GoAuthState where
  accessToken : Option String
  expiresAt : Int
  lockHolder : Option Nat
  tasks : Nat → GoPC
  inflight : Nat
  refreshStarts : Nat

/-- One interleaving step of caller `i` against the Go `Auth.GetToken`:
acquiring `a.mu` succeeds only when free; the cache check and the refresh
both happen under the lock, which is released only when `GetToken`
returns. -/
def goStep (now freshExpiresAt : Int) (freshToken : String) (s : GoAuthState)
    (i : Nat) : GoAuthState :=
  match s.tasks i with
  | .start =>
    match s.lockHolder with
    | some _ => s
    | none =>
      { s with
        lockHolder := some i
        tasks := fun j => if j = i then .checking else s.tasks j }
  | .checking =>
    if tokenValid now s.accessToken s.expiresAt then
      { s with
        lockHolder := none
        tasks := fun j =>
          if j = i then .done (s.accessToken.getD "") else s.tasks j }
    else
      { s with
        tasks := fun j => if j = i then .refreshing else s.tasks j
        inflight := s.inflight + 1
        refreshStarts := s.refreshStarts + 1 }
  | .refreshing =>
    { s with
      accessToken := some freshToken
      expiresAt := freshExpiresAt
      lockHolder := none
      tasks := fun j => if j = i then .done freshToken else s.tasks j
      inflight := s.inflight - 1 }
  | .done _ => s

/-- A fresh Go broker (no cached token) with every caller at its entry
point. -/
def goInit : GoAuthState :=
  { accessToken := none, expiresAt := 0, lockHolder := none,
    tasks := fun _ => .start, inflight := 0, refreshStarts := 0 }

/-- Run the Go broker under an explicit interleaving schedule. -/
def goRun (now freshExpiresAt : Int) (freshToken : String)
    (sched : List Nat) : GoAuthState :=
  sched.foldl (goStep now freshExpiresAt freshToken) goInit

/-- Reachable-state invariant of the Go broker under a mutex: a task that
has passed `mu.Lock()` (checking or refreshing) is the unique lock holder;
every returned token is the refreshed one; and the broker is always in one
of three phases — no refresh yet (empty cache, nobody past the check),
exactly one refresh in flight (held by the lock owner, all other tasks
still blocked or unstarted), or the single refresh completed (fresh token
cached, nobody refreshing). -/
def goInv (freshExpiresAt : Int) (freshToken : String) (s : GoAuthState) :
    Prop :=
  (∀ i, (s.tasks i = .checking ∨ s.tasks i = .refreshing) →
    s.lockHolder = some i) ∧
  (∀ i r, s.tasks i = .done r → r = freshToken) ∧
  ((s.refreshStarts = 0 ∧ s.inflight = 0 ∧ s.accessToken = none ∧
      ∀ i, s.tasks i = .start ∨ s.tasks i = .checking) ∨
   (s.refreshStarts = 1 ∧ s.inflight = 1 ∧ s.accessToken = none ∧
      ∃ j, s.tasks j = .refreshing ∧ ∀ k, k ≠ j → s.tasks k = .start) ∨
   (s.refreshStarts = 1 ∧ s.inflight = 0 ∧
      s.accessToken = some freshToken ∧ s.expiresAt = freshExpiresAt ∧
      ∀ i, s.tasks i ≠ .refreshing))

/-! ### Concrete fixtures used by witnesses and counterexamples -/

/-- A concrete Twitch user. -/
def userW : TwitchUser :=
  { id := "1", login := "alice", display_name := "Alice",
    profile_image_url := "p" }

/-- A concrete live stream for `userW`. -/
def streamW : TwitchStream :=
  { user_login := "alice", game_id := "g", game_name := "G", title := "T",
    viewer_count := 5, started_at := "2024-01-01T00:00:00Z",
    thumbnail_url := "th" }

/-- A VOD lookup that finds no recording. -/
def vodNoneW : String → Except String (Option TwitchVideo) :=
  fun _ => .ok none

/-- A concrete streamer configuration entry (mixed case, as configuration
allows). -/
def scW : StreamerConfig := ⟨"Alice"⟩

/-- A second concrete Twitch user. -/
def userBW : TwitchUser :=
  { id := "2", login := "bob", display_name := "Bob",
    profile_image_url := "q" }

/-- A stored snapshot in which `userW` is live. -/
def aliceLiveStateW : StreamerState :=
  { userId := "1", username := "alice", displayName := "Alice",
    profileImageUrl := "p", isLive := true, title := "T", gameId := "g",
    gameName := "G", startedAt := some "2024-01-01T00:00:00Z",
    thumbnailUrl := some "th", viewerCount := 5 }

/-- A stored snapshot in which `userBW` is live. -/
def bobLiveStateW : StreamerState :=
  { userId := "2", username := "bob", displayName := "Bob",
    profileImageUrl := "q", isLive := true, title := "U", gameId := "h",
    gameName := "H", startedAt := some "2024-01-01T01:00:00Z",
    thumbnailUrl := some "th2", viewerCount := 7 }

/-- Channel metadata for `userW` matching the stored title and game. -/
def chanAW : TwitchChannel :=
  { broadcaster_login := "alice", game_id := "g", game_name := "G",
    title := "T" }

/-- Channel metadata for `userBW` matching the stored title and game. -/
def chanBW : TwitchChannel :=
  { broadcaster_login := "bob", game_id := "h", game_name := "H",
    title := "U" }

/-- A VOD lookup whose HTTP request fails (the `request` helper of
`TwitchAPI` throws on a non-2xx response or transport error). -/
def vodErrW : String → Except String (Option TwitchVideo) :=
  fun _ => .error "Twitch API error"

/-- Two tracked streamers. -/
def cfgC4 : List StreamerConfig := [⟨"alice"⟩, ⟨"bob"⟩]

/-- User cache for the two tracked streamers. -/
def userCacheC4 : List (String × TwitchUser) :=
  [("alice", userW), ("bob", userBW)]

/-- Stored states: both streamers were live after the previous cycle. -/
def statesC4 : List (String × StreamerState) :=
  [("alice", aliceLiveStateW), ("bob", bobLiveStateW)]

/-- Cycle inputs: both streamers have just gone offline and the VOD lookup
throws. -/
def inpErrC4 : PollInputs :=
  { streamsResult := .ok [], channelsResult := .ok [("alice", chanAW), ("bob", chanBW)],
    vodOracle := vodErrW, rss := 0 }

/-- Cycle inputs: both streamers have just gone offline and the VOD lookup
succeeds with no recording. -/
def inpOkC4 : PollInputs :=
  { streamsResult := .ok [], channelsResult := .ok [("alice", chanAW), ("bob", chanBW)],
    vodOracle := vodNoneW, rss := 0 }

/-- Cycle inputs for the restart witness: nothing fetched. -/
def inpW : PollInputs :=
  { streamsResult := .ok [], channelsResult := .ok [],
    vodOracle := vodNoneW, rss := 0 }

/-! ## Theorems -/

/-- The derived `BEq` on `ChangeType` is propositional equality. -/
theorem changeType_beq (a b : ChangeType) : (a == b) = decide (a = b) := rfl

/-- C7: for every well-formed snapshot `S` with the old state present,
`diff(S, S)` yields an empty event list. -/
theorem detectChanges_self_empty (S : StreamerState) :
    detectChanges (some S) S = [] := by
  cases h : S.isLive <;> simp [detectChanges, h]

/-- C8: for every pair of snapshots with the old state present, `diff` emits
a title-changed event if and only if the titles differ and the new title is
non-empty; in particular a differing but empty new title yields no
title-changed event. -/
theorem detectChanges_titleChange_iff (o n : StreamerState) :
    (∃ c ∈ detectChanges (some o) n, c.type = ChangeType.titleChange) ↔
      (o.title ≠ n.title ∧ n.title ≠ "") := by
  by_cases ht : o.title = n.title <;> by_cases he : n.title = "" <;>
    cases h1 : o.isLive <;> cases h2 : n.isLive <;>
      by_cases hg : o.gameId = n.gameId <;>
        simp [detectChanges, h1, h2, ht, he, hg]

/-- C9: each batched read of the platform client returns an empty map and
issues no HTTP request when called with an empty input list. -/
theorem batched_reads_empty_shortcircuit
    (requestUsers : Unit → Except String (List TwitchUser))
    (requestStreams : Unit → Except String (List TwitchStream))
    (requestChannels : Unit → Except String (List TwitchChannel)) :
    getUsers requestUsers [] = (.ok [], 0) ∧
    getStreams requestStreams [] = (.ok [], 0) ∧
    getChannels requestChannels [] = (.ok [], 0) :=
  ⟨rfl, rfl, rfl⟩

/-- C10: the sink filter accepts a merged title-and-game event exactly when
the sink's titleChange or gameChange flag is enabled, and returns each other
kind's own flag. -/
theorem isNotificationEnabled_spec (notifications : NotificationSettings) :
    isNotificationEnabled .titleAndGameChange notifications =
      (notifications.titleChange || notifications.gameChange) ∧
    isNotificationEnabled .online notifications = notifications.online ∧
    isNotificationEnabled .offline notifications = notifications.offline ∧
    isNotificationEnabled .titleChange notifications =
      notifications.titleChange ∧
    isNotificationEnabled .gameChange notifications =
      notifications.gameChange :=
  ⟨rfl, rfl, rfl, rfl, rfl⟩

/-- C3: multi-sink dispatch isolation: for every sink list, delivery outcome
assignment and sink position, the dispatch attempts the delivery at that
position regardless of the other sinks' outcomes, and an error record with
that sink's 1-based ordinal and the total sink count is logged exactly when
that delivery rejected. The dispatch itself never raises (its type is a
plain pair, not `Except`). -/
theorem sendToMultipleWebhooks_isolation (send : String → Except String Unit)
    (webhookUrls : List String) (i : Nat) :
    (sendToMultipleWebhooks send webhookUrls).1[i]? =
      webhookUrls[i]?.map send ∧
    ((⟨i + 1, webhookUrls.length⟩ : WebhookErrorLog) ∈
        (sendToMultipleWebhooks send webhookUrls).2 ↔
      ∃ e, webhookUrls[i]?.map send = some (.error e)) := by
  constructor
  · simp [sendToMultipleWebhooks, List.getElem?_map]
  · simp only [sendToMultipleWebhooks, webhookErrorLogs]
    rw [List.mem_filterMap]
    constructor
    · rintro ⟨j, hj, hfj⟩
      rw [← List.getElem?_map send webhookUrls]
      cases hres : (webhookUrls.map send)[j]? with
      | none => rw [hres] at hfj; simp at hfj
      | some r =>
        cases r with
        | ok u => rw [hres] at hfj; simp at hfj
        | error e =>
          rw [hres] at hfj
          simp only [Option.some.injEq, WebhookErrorLog.mk.injEq] at hfj
          obtain ⟨hji, -⟩ := hfj
          have hji' : j = i := by omega
          exact ⟨e, by rw [← hji']; exact hres⟩
    · rintro ⟨e, he⟩
      rw [← List.getElem?_map send webhookUrls] at he
      refine ⟨i, ?_, ?_⟩
      · rw [List.mem_range]
        have := List.getElem?_eq_some_iff.mp he
        exact this.1
      · rw [he]

/-- C1: whenever a diff result contains both a title-changed and a
game-changed event for the entity, the scheduler's merge step returns the
other events of the diff unchanged followed by exactly one merged
`titleAndGameChange` event carrying both before/after pairs, with no
standalone title-changed or game-changed event surviving. -/
theorem combineChanges_merges (o n : StreamerState)
    (htitle : o.title ≠ n.title) (hne : n.title ≠ "")
    (hgame : o.gameId ≠ n.gameId) :
    combineChanges (detectChanges (some o) n) =
      (detectChanges (some o) n).filter
        (fun c => !isTitleChangeEvent c && !isGameChangeEvent c) ++
      [{ type := .titleAndGameChange, streamer := n.username,
         oldTitle := some o.title, newTitle := some n.title,
         oldGame := some o.gameName, newGame := some n.gameName,
         currentState := n }] ∧
    (combineChanges (detectChanges (some o) n)).countP
        (fun c => c.type == ChangeType.titleAndGameChange) = 1 ∧
    ∀ c ∈ combineChanges (detectChanges (some o) n),
      c.type ≠ ChangeType.titleChange ∧ c.type ≠ ChangeType.gameChange := by
  cases h1 : o.isLive <;> cases h2 : n.isLive <;>
    simp [detectChanges, combineChanges, isTitleChangeEvent,
      isGameChangeEvent, changeType_beq, h1, h2, htitle, hne, hgame,
      List.find?, List.filter, List.countP_cons]

/-- Witness for C1 at a concrete diff: old snapshot offline with title "A"
and game id/name "X", new snapshot offline with title "B" and game id/name
"Y". -/
theorem combineChanges_merges_witness :
    (let o : StreamerState :=
      { userId := "1", username := "alice", displayName := "Alice",
        profileImageUrl := "p", isLive := false, title := "A", gameId := "X",
        gameName := "X", startedAt := none, thumbnailUrl := none,
        viewerCount := 0 }
     let n : StreamerState :=
      { userId := "1", username := "alice", displayName := "Alice",
        profileImageUrl := "p", isLive := false, title := "B", gameId := "Y",
        gameName := "Y", startedAt := none, thumbnailUrl := none,
        viewerCount := 0 }
     o.title ≠ n.title ∧ n.title ≠ "" ∧ o.gameId ≠ n.gameId ∧
     (combineChanges (detectChanges (some o) n) =
       (detectChanges (some o) n).filter
         (fun c => !isTitleChangeEvent c && !isGameChangeEvent c) ++
       [{ type := .titleAndGameChange, streamer := n.username,
          oldTitle := some o.title, newTitle := some n.title,
          oldGame := some o.gameName, newGame := some n.gameName,
          currentState := n }] ∧
     (combineChanges (detectChanges (some o) n)).countP
         (fun c => c.type == ChangeType.titleAndGameChange) = 1 ∧
     ∀ c ∈ combineChanges (detectChanges (some o) n),
       c.type ≠ ChangeType.titleChange ∧ c.type ≠ ChangeType.gameChange)) :=
  ⟨by decide, by decide, by decide,
   combineChanges_merges _ _ (by decide) (by decide) (by decide)⟩

/-- C2: on the first-ever observation of an entity the diff is empty
whatever the snapshot, and the per-entity cycle handler then stores the
snapshot and emits exactly one went-live event when it is live and nothing
otherwise. -/
theorem processStreamer_initial_baseline
    (vodOracle : String → Except String (Option TwitchVideo))
    (userCache : List (String × TwitchUser))
    (streams : List (String × TwitchStream))
    (channels : List (String × TwitchChannel))
    (states : List (String × StreamerState)) (sc : StreamerConfig)
    (user : TwitchUser)
    (huser : mapGet userCache (lowercase sc.username) = some user)
    (hfirst : getState states (lowercase sc.username) = none) :
    (∀ S : StreamerState, detectChanges none S = []) ∧
    processStreamer vodOracle userCache streams channels states sc =
      .ok
        (updateState states (lowercase sc.username)
          (buildStreamerState user (mapGet streams (lowercase sc.username))
            (mapGet channels (lowercase sc.username))),
         if (buildStreamerState user (mapGet streams (lowercase sc.username))
              (mapGet channels (lowercase sc.username))).isLive then
           [{ type := .online,
              streamer := (buildStreamerState user
                (mapGet streams (lowercase sc.username))
                (mapGet channels (lowercase sc.username))).username,
              currentState := buildStreamerState user
                (mapGet streams (lowercase sc.username))
                (mapGet channels (lowercase sc.username)) }]
         else []) := by
  refine ⟨fun S => rfl, ?_⟩
  cases hlive : (buildStreamerState user (mapGet streams (lowercase sc.username))
      (mapGet channels (lowercase sc.username))).isLive <;>
    simp [processStreamer, huser, hfirst, hlive, detectChanges,
      combineChanges, attachVodInfo, changeType_beq, List.find?]

/-- Witness for C2 at a concrete first observation: one configured streamer
with an empty state store, currently live. -/
theorem processStreamer_initial_baseline_witness :
    mapGet [("alice", userW)] (lowercase scW.username) = some userW ∧
    getState ([] : List (String × StreamerState)) (lowercase scW.username) =
      none ∧
    ((∀ S : StreamerState, detectChanges none S = []) ∧
     processStreamer vodNoneW [("alice", userW)] [("alice", streamW)] [] []
         scW =
       .ok
         (updateState [] (lowercase scW.username)
           (buildStreamerState userW
             (mapGet [("alice", streamW)] (lowercase scW.username))
             (mapGet [] (lowercase scW.username))),
          if (buildStreamerState userW
               (mapGet [("alice", streamW)] (lowercase scW.username))
               (mapGet [] (lowercase scW.username))).isLive then
            [{ type := .online,
               streamer := (buildStreamerState userW
                 (mapGet [("alice", streamW)] (lowercase scW.username))
                 (mapGet [] (lowercase scW.username))).username,
               currentState := buildStreamerState userW
                 (mapGet [("alice", streamW)] (lowercase scW.username))
                 (mapGet [] (lowercase scW.username)) }]
          else [])) :=
  ⟨rfl, rfl,
   processStreamer_initial_baseline vodNoneW [("alice", userW)]
     [("alice", streamW)] [] [] scW userW rfl rfl⟩

/-- C6: the resource-guard restart path terminates the process only when,
after the cycle completes, the restart flag is set and every tracked
streamer's stored state is absent or offline — never while any stored state
is live. -/
theorem poll_restart_exit_requires_all_offline
    (streamers : List StreamerConfig)
    (userCache : List (String × TwitchUser)) (inp : PollInputs)
    (ps : PollerState)
    (h : (poll streamers userCache inp ps).2.2 = true) :
    (poll streamers userCache inp ps).1.restartPending = true ∧
    ∀ sc ∈ streamers,
      getState (poll streamers userCache inp ps).1.states
          (lowercase sc.username) = none ∨
      ∃ st,
        getState (poll streamers userCache inp ps).1.states
            (lowercase sc.username) = some st ∧
        st.isLive = false := by
  have hc : checkRestart streamers (poll streamers userCache inp ps).1.states
      (poll streamers userCache inp ps).1.restartPending = true := h
  unfold checkRestart at hc
  rw [Bool.and_eq_true] at hc
  obtain ⟨h1, h2⟩ := hc
  refine ⟨h1, ?_⟩
  intro sc hsc
  unfold isAllOffline at h2
  rw [List.all_eq_true] at h2
  have hmem := h2 sc hsc
  cases hst : getState (poll streamers userCache inp ps).1.states
      (lowercase sc.username) with
  | none => exact Or.inl rfl
  | some st =>
    rw [hst] at hmem
    exact Or.inr ⟨st, rfl, by simpa using hmem⟩

/-- Witness for C6 at a concrete exiting cycle: the restart flag is armed,
the single tracked streamer has no stored state, and the cycle exits. -/
theorem poll_restart_exit_requires_all_offline_witness :
    (poll [scW] [] inpW ⟨[], 0, true⟩).2.2 = true ∧
    ((poll [scW] [] inpW ⟨[], 0, true⟩).1.restartPending = true ∧
     ∀ sc ∈ [scW],
       getState (poll [scW] [] inpW ⟨[], 0, true⟩).1.states
           (lowercase sc.username) = none ∨
       ∃ st,
         getState (poll [scW] [] inpW ⟨[], 0, true⟩).1.states
             (lowercase sc.username) = some st ∧
         st.isLive = false) :=
  ⟨rfl, poll_restart_exit_requires_all_offline [scW] [] inpW ⟨[], 0, true⟩ rfl⟩

/-- C4 is contradicted by the TypeScript poller: with two streamers that
both just went offline, a throwing VOD lookup propagates out of
`attachVodInfo` to the poll-boundary catch, so the cycle emits nothing, the
affected streamer's store update is lost and the remaining streamer is not
processed — whereas the identical cycle whose VOD lookup merely finds no
recording updates both stored states and emits both offline events (without
recording fields). -/
theorem attachVodInfo_failure_aborts_cycle :
    (poll cfgC4 userCacheC4 inpErrC4 ⟨statesC4, 0, false⟩).1.states =
      statesC4 ∧
    (poll cfgC4 userCacheC4 inpErrC4 ⟨statesC4, 0, false⟩).2.1 = [] ∧
    getState statesC4 "alice" = some aliceLiveStateW ∧
    aliceLiveStateW.isLive = true ∧
    (poll cfgC4 userCacheC4 inpOkC4 ⟨statesC4, 0, false⟩).1.states =
      [("alice", buildStreamerState userW none (some chanAW)),
       ("bob", buildStreamerState userBW none (some chanBW))] ∧
    (poll cfgC4 userCacheC4 inpOkC4 ⟨statesC4, 0, false⟩).2.1 =
      [{ type := .offline, streamer := "alice",
         streamStartedAt := aliceLiveStateW.startedAt,
         currentState := buildStreamerState userW none (some chanAW) },
       { type := .offline, streamer := "bob",
         streamStartedAt := bobLiveStateW.startedAt,
         currentState := buildStreamerState userBW none (some chanBW) }] := by
  refine ⟨rfl, rfl, rfl, rfl, ?_, ?_⟩ <;> decide

/-- Unfolding: a completed caller's step is a no-op. -/
theorem goStep_eq_of_done (now freshExpiresAt : Int) (freshToken : String)
    (s : GoAuthState) (i : Nat) (r : String) (h : s.tasks i = GoPC.done r) :
    goStep now freshExpiresAt freshToken s i = s := by
  simp [goStep, h]

/-- Unfolding: a caller blocked on a held mutex makes no progress. -/
theorem goStep_eq_of_start_locked (now freshExpiresAt : Int)
    (freshToken : String) (s : GoAuthState) (i j : Nat)
    (h : s.tasks i = GoPC.start) (hl : s.lockHolder = some j) :
    goStep now freshExpiresAt freshToken s i = s := by
  simp [goStep, h, hl]

/-- Unfolding: a caller acquires the free mutex and moves to the cache
check. -/
theorem goStep_eq_of_start_free (now freshExpiresAt : Int)
    (freshToken : String) (s : GoAuthState) (i : Nat)
    (h : s.tasks i = GoPC.start) (hl : s.lockHolder = none) :
    goStep now freshExpiresAt freshToken s i =
      { s with lockHolder := some i,
               tasks := fun k => if k = i then GoPC.checking else s.tasks k } := by
  simp [goStep, h, hl]

/-- Unfolding: a caller holding the mutex over a fresh cache returns it and
releases. -/
theorem goStep_eq_of_checking_valid (now freshExpiresAt : Int)
    (freshToken : String) (s : GoAuthState) (i : Nat)
    (h : s.tasks i = GoPC.checking)
    (hv : tokenValid now s.accessToken s.expiresAt = true) :
    goStep now freshExpiresAt freshToken s i =
      { s with lockHolder := none,
               tasks := fun k =>
                 if k = i then GoPC.done (s.accessToken.getD "")
                 else s.tasks k } := by
  simp [goStep, h, hv]

/-- Unfolding: a caller holding the mutex over a stale cache begins the
refresh. -/
theorem goStep_eq_of_checking_stale (now freshExpiresAt : Int)
    (freshToken : String) (s : GoAuthState) (i : Nat)
    (h : s.tasks i = GoPC.checking)
    (hv : tokenValid now s.accessToken s.expiresAt = false) :
    goStep now freshExpiresAt freshToken s i =
      { s with tasks := fun k => if k = i then GoPC.refreshing else s.tasks k,
               inflight := s.inflight + 1,
               refreshStarts := s.refreshStarts + 1 } := by
  simp [goStep, h, hv]

/-- Unfolding: a refreshing caller completes, publishes the token and
releases the mutex. -/
theorem goStep_eq_of_refreshing (now freshExpiresAt : Int)
    (freshToken : String) (s : GoAuthState) (i : Nat)
    (h : s.tasks i = GoPC.refreshing) :
    goStep now freshExpiresAt freshToken s i =
      { s with accessToken := some freshToken, expiresAt := freshExpiresAt,
               lockHolder := none,
               tasks := fun k => if k = i then GoPC.done freshToken
                 else s.tasks k,
               inflight := s.inflight - 1 } := by
  simp [goStep, h]

/-- One step of any caller against the Go broker preserves the mutex
invariant `goInv`, provided the refreshed token is non-empty and within its
safety margin. -/
theorem goStep_preserves_goInv (now freshExpiresAt : Int)
    (freshToken : String) (hfresh : now < freshExpiresAt - 60000)
    (hne : freshToken ≠ "") (s : GoAuthState) (i : Nat)
    (hinv : goInv freshExpiresAt freshToken s) :
    goInv freshExpiresAt freshToken
      (goStep now freshExpiresAt freshToken s i) := by
  obtain ⟨hL, hD, hP⟩ := hinv
  cases hpc : s.tasks i with
  | done r =>
    rw [goStep_eq_of_done now freshExpiresAt freshToken s i r hpc]
    exact ⟨hL, hD, hP⟩
  | start =>
    cases hlock : s.lockHolder with
    | some j =>
      rw [goStep_eq_of_start_locked now freshExpiresAt freshToken s i j hpc
        hlock]
      exact ⟨hL, hD, hP⟩
    | none =>
      rw [goStep_eq_of_start_free now freshExpiresAt freshToken s i hpc hlock]
      refine ⟨?_, ?_, ?_⟩
      · intro k hk
        dsimp only at hk ⊢
        by_cases hki : k = i
        · simp [hki]
        · simp only [if_neg hki] at hk
          have h := hL k hk
          rw [hlock] at h
          exact absurd h (by simp)
      · intro k r hk
        dsimp only at hk
        by_cases hki : k = i
        · simp [if_pos hki] at hk
        · rw [if_neg hki] at hk
          exact hD k r hk
      · rcases hP with hA | hB | hC
        · left
          obtain ⟨h1, h2, h3, h4⟩ := hA
          refine ⟨h1, h2, h3, ?_⟩
          intro k
          dsimp only
          by_cases hki : k = i
          · simp [hki]
          · simpa [if_neg hki] using h4 k
        · obtain ⟨-, -, -, j', hj', -⟩ := hB
          have h := hL j' (Or.inr hj')
          rw [hlock] at h
          exact absurd h (by simp)
        · right; right
          obtain ⟨h1, h2, h3, h4, h5⟩ := hC
          refine ⟨h1, h2, h3, h4, ?_⟩
          intro k
          dsimp only
          by_cases hki : k = i
          · simp [hki]
          · simpa [if_neg hki] using h5 k
  | checking =>
    have hlock : s.lockHolder = some i := hL i (Or.inl hpc)
    cases htv : tokenValid now s.accessToken s.expiresAt with
    | true =>
      rcases hP with hA | hB | hC
      · obtain ⟨-, -, h3, -⟩ := hA
        rw [h3] at htv
        simp [tokenValid] at htv
      · obtain ⟨-, -, h3, -⟩ := hB
        rw [h3] at htv
        simp [tokenValid] at htv
      · obtain ⟨h1, h2, h3, h4, h5⟩ := hC
        rw [goStep_eq_of_checking_valid now freshExpiresAt freshToken s i hpc
          htv]
        refine ⟨?_, ?_, ?_⟩
        · intro k hk
          dsimp only at hk ⊢
          by_cases hki : k = i
          · simp [hki] at hk
          · rw [if_neg hki] at hk
            have h := hL k hk
            rw [hlock] at h
            simp only [Option.some.injEq] at h
            exact absurd h.symm hki
        · intro k r hk
          dsimp only at hk
          by_cases hki : k = i
          · rw [if_pos hki, h3] at hk
            simp only [Option.getD_some, GoPC.done.injEq] at hk
            exact hk.symm
          · rw [if_neg hki] at hk
            exact hD k r hk
        · right; right
          refine ⟨h1, h2, h3, h4, ?_⟩
          intro k
          dsimp only
          by_cases hki : k = i
          · simp [hki]
          · simpa [if_neg hki] using h5 k
    | false =>
      rcases hP with hA | hB | hC
      · obtain ⟨h1, h2, h3, h4⟩ := hA
        rw [goStep_eq_of_checking_stale now freshExpiresAt freshToken s i hpc
          htv]
        refine ⟨?_, ?_, ?_⟩
        · intro k hk
          dsimp only at hk ⊢
          by_cases hki : k = i
          · rw [hki]; exact hlock
          · rw [if_neg hki] at hk
            exact hL k hk
        · intro k r hk
          dsimp only at hk
          by_cases hki : k = i
          · simp [if_pos hki] at hk
          · rw [if_neg hki] at hk
            exact hD k r hk
        · right; left
          refine ⟨by rw [h1], by rw [h2], h3, i, by simp, ?_⟩
          intro k hki
          dsimp only
          rw [if_neg hki]
          rcases h4 k with h | h
          · exact h
          · have hlk := hL k (Or.inl h)
            rw [hlock] at hlk
            simp only [Option.some.injEq] at hlk
            exact absurd hlk.symm hki
      · obtain ⟨-, -, -, j', hj', -⟩ := hB
        have h := hL j' (Or.inr hj')
        rw [hlock] at h
        simp only [Option.some.injEq] at h
        rw [← h, hpc] at hj'
        exact absurd hj' (by simp)
      · obtain ⟨-, -, h3, h4, -⟩ := hC
        rw [h3, h4] at htv
        simp [tokenValid, hne] at htv
        omega
  | refreshing =>
    have hlock : s.lockHolder = some i := hL i (Or.inr hpc)
    rcases hP with hA | hB | hC
    · obtain ⟨-, -, -, h4⟩ := hA
      rcases h4 i with h | h <;> rw [hpc] at h <;> exact absurd h (by simp)
    · obtain ⟨h1, h2, h3, j', hj', hrest⟩ := hB
      have hji : i = j' := by
        by_contra hne
        have h := hrest i hne
        rw [hpc] at h
        exact absurd h (by simp)
      rw [goStep_eq_of_refreshing now freshExpiresAt freshToken s i hpc]
      refine ⟨?_, ?_, ?_⟩
      · intro k hk
        dsimp only at hk ⊢
        by_cases hki : k = i
        · simp [hki] at hk
        · rw [if_neg hki] at hk
          have hstart := hrest k (fun hkj => hki (hkj.trans hji.symm))
          rcases hk with h | h <;> rw [hstart] at h <;>
            exact absurd h (by simp)
      · intro k r hk
        dsimp only at hk
        by_cases hki : k = i
        · rw [if_pos hki] at hk
          simp only [GoPC.done.injEq] at hk
          exact hk.symm
        · rw [if_neg hki] at hk
          exact hD k r hk
      · right; right
        refine ⟨h1, by rw [h2], rfl, rfl, ?_⟩
        intro k
        dsimp only
        by_cases hki : k = i
        · simp [hki]
        · rw [if_neg hki]
          have hstart := hrest k (fun hkj => hki (hkj.trans hji.symm))
          rw [hstart]
          simp
    · obtain ⟨-, -, -, -, h5⟩ := hC
      exact absurd hpc (h5 i)

/-- The mutex invariant holds in the Go broker's initial state and is
preserved along any interleaving schedule. -/
theorem goRun_goInv (now freshExpiresAt : Int) (freshToken : String)
    (hfresh : now < freshExpiresAt - 60000) (hne : freshToken ≠ "")
    (sched : List Nat) :
    goInv freshExpiresAt freshToken
      (goRun now freshExpiresAt freshToken sched) := by
  have hinit : goInv freshExpiresAt freshToken goInit := by
    refine ⟨?_, ?_, Or.inl ⟨rfl, rfl, rfl, fun i => Or.inl rfl⟩⟩
    · intro i hi
      rcases hi with h | h <;> exact absurd h (by simp [goInit])
    · intro i r h
      exact absurd h (by simp [goInit])
  have hfold : ∀ (l : List Nat) (s : GoAuthState),
      goInv freshExpiresAt freshToken s →
      goInv freshExpiresAt freshToken
        (l.foldl (goStep now freshExpiresAt freshToken) s) := by
    intro l
    induction l with
    | nil => intro s hs; exact hs
    | cons a l ih =>
      intro s hs
      exact ih _ (goStep_preserves_goInv now freshExpiresAt freshToken hfresh
        hne s a hs)
  exact hfold sched goInit hinit

/-- C5 fails on the TypeScript broker: `TwitchAuth.getToken` performs no
serialization, so two callers that both observe the empty cache before
either refresh resolves put two refresh requests in flight at once
(schedule: caller 0 starts its refresh, then caller 1 starts its own). -/
theorem tsAuth_single_refresh_counterexample :
    ¬ ∀ sched : List Nat,
        (tsRun 0 10000000 "token" sched).inflight ≤ 1 := by
  intro h
  have h2 := h [0, 1]
  have he : (tsRun 0 10000000 "token" [0, 1]).inflight = 2 := rfl
  omega

/-- C5 amended: the Go broker (`Auth.GetToken`, which holds `a.mu` across
the staleness check and the refresh) admits at most one refresh in flight
at any time along every interleaving of every number of concurrent callers
starting from an empty cache; provided the refresh yields a non-empty token
within its safety margin (as the token endpoint does), at most one refresh
is ever attempted, and every caller that has returned observed that single
refresh's token. -/
theorem goAuth_single_refresh_in_flight (now freshExpiresAt : Int)
    (freshToken : String) (hfresh : now < freshExpiresAt - 60000)
    (hne : freshToken ≠ "") (sched : List Nat) :
    (goRun now freshExpiresAt freshToken sched).inflight ≤ 1 ∧
    (goRun now freshExpiresAt freshToken sched).refreshStarts ≤ 1 ∧
    ∀ i r, (goRun now freshExpiresAt freshToken sched).tasks i =
        GoPC.done r → r = freshToken := by
  obtain ⟨-, hD, hP⟩ :=
    goRun_goInv now freshExpiresAt freshToken hfresh hne sched
  refine ⟨?_, ?_, hD⟩ <;>
    rcases hP with ⟨h1, h2, -⟩ | ⟨h1, h2, -⟩ | ⟨h1, h2, -⟩ <;> omega

/-- Witness for the amended C5 at a concrete run: three callers, caller 0
refreshes to completion, then callers 1 and 2 read the cache. -/
theorem goAuth_single_refresh_in_flight_witness :
    ((0 : Int) < 10000000 - 60000) ∧
    ("token" : String) ≠ "" ∧
    ((goRun 0 10000000 "token" [0, 0, 0, 1, 1, 2, 2]).inflight ≤ 1 ∧
     (goRun 0 10000000 "token" [0, 0, 0, 1, 1, 2, 2]).refreshStarts ≤ 1 ∧
     ∀ i r, (goRun 0 10000000 "token" [0, 0, 0, 1, 1, 2, 2]).tasks i =
         GoPC.done r → r = "token") :=
  ⟨by decide, by decide,
   goAuth_single_refresh_in_flight 0 10000000 "token" (by decide) (by decide)
     [0, 0, 0, 1, 1, 2, 2]⟩

end StreamNotifier
